import Mathlib

set_option maxRecDepth 10000

/- Shallow embedding of the epl_analytics_project repository:
   - src/epl-function/function_app.py        (blob-triggered Excel splitter)
   - src/.github/scripts/gate_until_loaded.py (warehouse load-completion gate)
   - src/epl-dbt-dispatcher/function_app.py   (GitHub workflow dispatcher)

   Python strings are modelled as Lean String values (lists of characters).
   Python character classes and case mapping are modelled by their ASCII
   restrictions (Char.toLower, Char.toUpper, Char.isDigit, Char.isAlphanum),
   which agree with Python on every character occurring in the patterns the
   code tests for.  Interaction with external services (blob storage, the
   warehouse catalog, HTTP) is modelled by passing in the sequence of values
   the service would return and recording the action the code takes. -/

/- ---------- Python string primitives ---------- -/

/-- The apostrophe character (code point 39). -/
def squote : Char := Char.ofNat 39

/-- The double-quote character (code point 34). -/
def dquote : Char := Char.ofNat 34

/-- Python str.lower (ASCII restriction). -/
def pyLower (s : String) : String := ⟨s.toList.map Char.toLower⟩

/-- Python str.upper (ASCII restriction). -/
def pyUpper (s : String) : String := ⟨s.toList.map Char.toUpper⟩

/-- Python str.startswith. -/
def pyStartsWith (s pre : String) : Bool := pre.toList.isPrefixOf s.toList

/-- Python str.endswith. -/
def pyEndsWith (s suf : String) : Bool := suf.toList.isSuffixOf s.toList

/-- Auxiliary scan for substring containment, leftmost-first. -/
def containsSubAux (needle : List Char) : List Char → Bool
  | [] => needle.isEmpty
  | c :: t => needle.isPrefixOf (c :: t) || containsSubAux needle t

/-- Python substring membership: needle in s. -/
def pyContains (s needle : String) : Bool := containsSubAux needle.toList s.toList

/-- Python str.strip() whitespace class (ASCII restriction:
    tab, newline, vertical tab, form feed, carriage return, space). -/
def pyIsSpace (c : Char) : Bool := [9, 10, 11, 12, 13, 32].contains c.toNat

/-- Python str.strip(): drop leading and trailing whitespace. -/
def pyStrip (s : String) : String :=
  ⟨((s.toList.dropWhile pyIsSpace).reverse.dropWhile pyIsSpace).reverse⟩

/-- Python str.rstrip(c): drop every trailing occurrence of c. -/
def pyRstrip (c : Char) (s : String) : String :=
  ⟨(s.toList.reverse.dropWhile (fun d => d == c)).reverse⟩

/-- Python s.split(sep)[-1] for sep = "/", which is also os.path.basename
    for the slash-separated paths this repository handles. -/
def lastSlashSegment (s : String) : String :=
  ⟨(s.toList.reverse.takeWhile (fun c => c != '/')).reverse⟩

/-- Python full_path.split("/", 1)[1] if "/" in full_path else full_path. -/
def dropThroughFirstSlash (s : String) : String :=
  if s.toList.contains '/' then ⟨(s.toList.dropWhile (fun c => c != '/')).tail⟩ else s

/-- String append distributes over toList (String.append concatenates data). -/
theorem toList_append (s t : String) : (s ++ t).toList = s.toList ++ t.toList := rfl

/- ---------- src/epl-function/function_app.py : helpers ---------- -/

/-- Source: _determine_file_type.  Classify a filename into a
    (file-type folder, optional target sheet) pair.  The unknown-pattern
    branch logs a warning and falls back to dsp_summary with all sheets. -/
def _determine_file_type (filename : String) : String × Option String :=
  let filenameLower := pyLower filename
  if pyStartsWith filenameLower "routes_" && pyContains filenameLower "dsk4" then
    ("driver_routes", some "Routes")
  else if pyContains filenameLower "dayofopsplan" then
    ("dsp_summary", none)
  else
    ("dsp_summary", none)

/-- Numeric value of an ASCII digit character. -/
def digitVal (c : Char) : Nat := c.toNat - 48

/-- Decimal value of a digit string. -/
def digitsToNat (l : List Char) : Nat := l.foldl (fun n c => n * 10 + digitVal c) 0

/-- Anchored match of the regex (\d{4})-(\d{2})-(\d{2}) at the head of the
    character list; returns the year digits and month digits on success. -/
def matchDateShapeAt : List Char → Option (List Char × List Char)
  | y1 :: y2 :: y3 :: y4 :: h1 :: m1 :: m2 :: h2 :: d1 :: d2 :: _ =>
    if y1.isDigit && y2.isDigit && y3.isDigit && y4.isDigit && h1 == '-' &&
       m1.isDigit && m2.isDigit && h2 == '-' && d1.isDigit && d2.isDigit then
      some ([y1, y2, y3, y4], [m1, m2])
    else none
  | _ => none

/-- re.search with the pattern above: leftmost occurrence wins. -/
def findFirstDate : List Char → Option (List Char × List Char)
  | [] => none
  | c :: t =>
    match matchDateShapeAt (c :: t) with
    | some r => some r
    | none => findFirstDate t

/-- datetime.strptime(year-month-01, %Y-%m-%d) succeeds exactly when the
    year is at least 1 and the month is between 1 and 12; the day field of
    the probe string is the constant "01", so day digits are never checked. -/
def strptimeYearMonth01Ok (y m : List Char) : Bool :=
  decide (1 ≤ digitsToNat y ∧ 1 ≤ digitsToNat m ∧ digitsToNat m ≤ 12)

/-- Python f-string 02d formatting of a month number. -/
def pad2 (n : Nat) : String := if n < 10 then "0" ++ Nat.repr n else Nat.repr n

/-- Source: _extract_year_month.  The current UTC date (used by the
    fallback branch) is passed in as a (year, month) pair. -/
def _extract_year_month (now : Nat × Nat) (stem : String) : String × String :=
  match findFirstDate stem.toList with
  | some (y, m) =>
    if strptimeYearMonth01Ok y m then (⟨y⟩, ⟨m⟩)
    else (Nat.repr now.1, pad2 now.2)
  | none => (Nat.repr now.1, pad2 now.2)

/-- Per-character sanitization used by _safe. -/
def safeChar (c : Char) : Char :=
  if c.isAlphanum || c == '-' || c == '_' then c else '_'

/-- Source: _safe.  Sanitize a sheet name for blob paths. -/
def _safe (name : String) : String := ⟨name.toList.map safeChar⟩

/-- Source: _wait_for_copy_success.  The destination blob's copy status is
    polled once per second until the deadline; the input list is the
    sequence of statuses the loop would observe at successive polls (none
    models a blob with no copy properties), its length bounded by the
    timeout.  An empty remainder means the deadline passed. -/
def _wait_for_copy_success : List (Option String) → Bool
  | [] => false
  | st :: rest =>
    if st == some "success" then true
    else if st == some "aborted" || st == some "failed" then false
    else _wait_for_copy_success rest

/-- Timeout passed to _wait_for_copy_success by split_excel. -/
def archiveCopyTimeoutS : Nat := 60

/-- What the archive step of split_excel does with the source blob. -/
inductive ArchiveAction where
  | deleteSource : ArchiveAction
  | keepSource : ArchiveAction
deriving DecidableEq

/-- Archive tail of split_excel: container.delete_blob(blob_name) runs
    exactly when _wait_for_copy_success returns True; otherwise the code
    logs an error and keeps the source. -/
def archive_step (polls : List (Option String)) : ArchiveAction :=
  if _wait_for_copy_success polls then ArchiveAction.deleteSource
  else ArchiveAction.keepSource

/- ---------- C4 ---------- -/

theorem safeChar_idem (c : Char) : safeChar (safeChar c) = safeChar c := by
  unfold safeChar
  by_cases h : (c.isAlphanum || c == '-' || c == '_') = true
  · simp [h]
  · simp [h]

theorem safeChar_good (c : Char) :
    ((safeChar c).isAlphanum || safeChar c == '-' || safeChar c == '_') = true := by
  unfold safeChar
  by_cases h : (c.isAlphanum || c == '-' || c == '_') = true
  · simp [h]
  · simp [h]

/-- C4: sheet-name sanitization is idempotent, and every character of its
    output is alphanumeric, a hyphen, or an underscore. -/
theorem C4_safe_idempotent_and_charset :
    ∀ s : String, _safe (_safe s) = _safe s ∧
      (_safe s).toList.all (fun c => c.isAlphanum || c == '-' || c == '_') = true := by
  intro s
  constructor
  · show (⟨(s.toList.map safeChar).map safeChar⟩ : String) = ⟨s.toList.map safeChar⟩
    rw [List.map_map]
    rw [show safeChar ∘ safeChar = safeChar from funext safeChar_idem]
  · show ((s.toList.map safeChar).all _) = true
    rw [List.all_map]
    rw [List.all_eq_true]
    intro c _
    exact safeChar_good c

/- ---------- C2 ---------- -/

/-- C2 as stated is false: the routes rule is tested first, so a filename
    that both matches routes_*dsk4* and contains dayofopsplan is classified
    as driver routes, not as dispatch summary. -/
theorem C2_counterexample :
    pyContains (pyLower "Routes_DSK4_DayOfOpsPlan.xlsx") "dayofopsplan" = true ∧
    _determine_file_type "Routes_DSK4_DayOfOpsPlan.xlsx" = ("driver_routes", some "Routes") ∧
    _determine_file_type "Routes_DSK4_DayOfOpsPlan.xlsx" ≠ ("dsp_summary", (none : Option String)) := by
  refine ⟨rfl, rfl, ?_⟩
  decide

/-- C2 (amended): a lowercased name starting with routes_ and containing
    dsk4 classifies as ("driver_routes", target sheet "Routes"); a name
    containing dayofopsplan that does not match the routes rule classifies
    as ("dsp_summary", no target sheet). -/
theorem C2_classification_amended :
    ∀ filename : String,
      (pyStartsWith (pyLower filename) "routes_" = true →
       pyContains (pyLower filename) "dsk4" = true →
       _determine_file_type filename = ("driver_routes", some "Routes")) ∧
      (pyContains (pyLower filename) "dayofopsplan" = true →
       (pyStartsWith (pyLower filename) "routes_" && pyContains (pyLower filename) "dsk4") = false →
       _determine_file_type filename = ("dsp_summary", none)) := by
  intro filename
  constructor
  · intro h1 h2
    unfold _determine_file_type
    simp [h1, h2]
  · intro h1 h2
    unfold _determine_file_type
    simp [h1, h2]

theorem C2_witness :
    _determine_file_type "Routes_DSK4_2025-09-13_15_16 (EDT).xlsx" = ("driver_routes", some "Routes") ∧
    _determine_file_type "2025-02-10-DSK4-CYCLE_1-DSP-DayOfOpsPlan.xlsx" = ("dsp_summary", none) :=
  ⟨(C2_classification_amended "Routes_DSK4_2025-09-13_15_16 (EDT).xlsx").1 (by decide) (by decide),
   (C2_classification_amended "2025-02-10-DSK4-CYCLE_1-DSP-DayOfOpsPlan.xlsx").2 (by decide) (by decide)⟩

/- ---------- C3 ---------- -/

/-- Leftmost-match characterization: if no date shape matches at any
    position before i and one matches at i, the scan returns that match. -/
theorem findFirstDate_of_first :
    ∀ (l : List Char) (i : Nat) (r : List Char × List Char),
      (∀ j, j < i → matchDateShapeAt (l.drop j) = none) →
      matchDateShapeAt (l.drop i) = some r →
      findFirstDate l = some r := by
  intro l
  induction l with
  | nil =>
    intro i r _ h2
    simp at h2
    exact absurd h2 (by simp [matchDateShapeAt])
  | cons c t ih =>
    intro i r h1 h2
    cases i with
    | zero =>
      simp at h2
      unfold findFirstDate
      rw [h2]
    | succ i =>
      have h0 : matchDateShapeAt (c :: t) = none := by
        have := h1 0 (Nat.succ_pos i)
        simpa using this
      unfold findFirstDate
      rw [h0]
      apply ih i r
      · intro j hj
        have := h1 (j + 1) (Nat.succ_lt_succ hj)
        simpa using this
      · simpa using h2

/-- If no date shape matches at any position inside the list, the scan
    fails (positions at or past the length see the empty list, where the
    shape can never match). -/
theorem findFirstDate_none :
    ∀ l : List Char,
      (∀ j, j < l.length → matchDateShapeAt (l.drop j) = none) →
      findFirstDate l = none := by
  intro l
  induction l with
  | nil => intro _; rfl
  | cons c t ih =>
    intro h
    have h0 : matchDateShapeAt (c :: t) = none := by
      have := h 0 (by simp)
      simpa using this
    unfold findFirstDate
    rw [h0]
    apply ih
    intro j hj
    have := h (j + 1) (by simpa using Nat.succ_lt_succ hj)
    simpa using this

/-- Leap-year rule, modelled from the spec's phrase "valid calendar date". -/
def spec_isLeapYear (y : Nat) : Bool := (y % 4 == 0 && y % 100 != 0) || y % 400 == 0

/-- Days in a month, modelled from the spec's phrase "valid calendar date". -/
def spec_daysInMonth (y m : Nat) : Nat :=
  if m = 2 then (if spec_isLeapYear y then 29 else 28)
  else if m = 4 ∨ m = 6 ∨ m = 9 ∨ m = 11 then 30 else 31

/-- Valid calendar date, modelled from the spec's words: the claim demands
    fallback whenever the matched substring is not a real calendar date,
    explicitly including "an invalid day for the month". -/
def spec_validCalendarDate (y m d : Nat) : Bool :=
  decide (1 ≤ y ∧ 1 ≤ m ∧ m ≤ 12 ∧ 1 ≤ d ∧ d ≤ spec_daysInMonth y m)

/-- C3 as stated is false: the stem report_2025-02-31 has the shaped
    substring 2025-02-31, which is not a valid calendar date (February has
    no day 31), yet extraction returns ("2025", "02") instead of the
    current UTC date (2099, 7): the code validates only year and month. -/
theorem C3_counterexample :
    pyContains "report_2025-02-31" "2025-02-31" = true ∧
    spec_validCalendarDate 2025 2 31 = false ∧
    _extract_year_month (2099, 7) "report_2025-02-31" = ("2025", "02") ∧
    ("2025", "02") ≠ (Nat.repr 2099, pad2 7) := by
  refine ⟨rfl, by decide, rfl, by decide⟩

/-- C3 (amended): extraction returns the year and month digits of the
    leftmost YYYY-MM-DD-shaped substring whenever that substring's year is
    at least 0001 and its month is between 01 and 12 — the day digits are
    never validated — and falls back to the current UTC year and
    zero-padded month when there is no shaped substring or the leftmost
    one fails the year/month check. -/
theorem C3_partition_extraction_amended :
    ∀ (now : Nat × Nat) (stem : String),
      (∀ (i : Nat) (y m : List Char),
        (∀ j, j < i → matchDateShapeAt (stem.toList.drop j) = none) →
        matchDateShapeAt (stem.toList.drop i) = some (y, m) →
        _extract_year_month now stem =
          if strptimeYearMonth01Ok y m then (⟨y⟩, ⟨m⟩)
          else (Nat.repr now.1, pad2 now.2)) ∧
      ((∀ j, j < stem.toList.length → matchDateShapeAt (stem.toList.drop j) = none) →
        _extract_year_month now stem = (Nat.repr now.1, pad2 now.2)) := by
  intro now stem
  constructor
  · intro i y m h1 h2
    unfold _extract_year_month
    rw [findFirstDate_of_first stem.toList i (y, m) h1 h2]
  · intro h
    unfold _extract_year_month
    rw [findFirstDate_none stem.toList h]

theorem C3_witness :
    _extract_year_month (2099, 7) "2025-09-13_X" = ("2025", "09") ∧
    _extract_year_month (2099, 7) "2025-13-01_X" = ("2099", "07") ∧
    _extract_year_month (2099, 7) "nodate" = ("2099", "07") := by
  refine ⟨?_, ?_, ?_⟩
  · have h := (C3_partition_extraction_amended (2099, 7) "2025-09-13_X").1 0
      ['2', '0', '2', '5'] ['0', '9']
      (fun j hj => absurd hj (Nat.not_lt_zero j)) (by decide)
    exact h.trans (by decide)
  · have h := (C3_partition_extraction_amended (2099, 7) "2025-13-01_X").1 0
      ['2', '0', '2', '5'] ['1', '3']
      (fun j hj => absurd hj (Nat.not_lt_zero j)) (by decide)
    exact h.trans (by decide)
  · exact (C3_partition_extraction_amended (2099, 7) "nodate").2 (by decide)

/- ---------- C1 ---------- -/

/-- The wait loop reports success only if it actually observed a
    "success" status. -/
theorem wait_success_requires_observation :
    ∀ polls : List (Option String),
      _wait_for_copy_success polls = true → (some "success") ∈ polls := by
  intro polls
  induction polls with
  | nil => intro h; exact absurd h (by decide)
  | cons st rest ih =>
    intro h
    unfold _wait_for_copy_success at h
    by_cases h1 : (st == some "success") = true
    · rw [← beq_iff_eq.mp h1]
      exact List.mem_cons_self st rest
    · rw [if_neg (by simp [h1])] at h
      by_cases h2 : (st == some "aborted" || st == some "failed") = true
      · rw [if_pos h2] at h
        exact absurd h (by decide)
      · rw [if_neg h2] at h
        exact List.mem_cons_of_mem st (ih h)

/-- If a terminal "aborted" or "failed" status is observed before any
    "success", the wait loop reports failure. -/
theorem wait_terminal_failure :
    ∀ (polls : List (Option String)) (i : Nat) (st : Option String),
      polls.get? i = some st →
      (st = some "aborted" ∨ st = some "failed") →
      (∀ j, j < i → polls.get? j ≠ some (some "success")) →
      _wait_for_copy_success polls = false := by
  intro polls
  induction polls with
  | nil =>
    intro i st hget _ _
    simp at hget
  | cons a rest ih =>
    intro i st hget hterm hbefore
    cases i with
    | zero =>
      simp at hget
      subst hget
      rcases hterm with h | h <;> subst h <;> rfl
    | succ i =>
      have ha : a ≠ some "success" := by
        have := hbefore 0 (Nat.succ_pos i)
        simp at this
        exact this
      unfold _wait_for_copy_success
      rw [if_neg (by simpa using ha)]
      by_cases h2 : (a == some "aborted" || a == some "failed") = true
      · rw [if_pos h2]
      · rw [if_neg h2]
        apply ih i st (by simpa using hget) hterm
        intro j hj
        have := hbefore (j + 1) (Nat.succ_lt_succ hj)
        simpa using this

/-- C1: in the archive step, the source blob is deleted only if the copy
    poll observed a "success" status within the timeout window; if no
    "success" is observed (timeout), or an "aborted"/"failed" status is
    observed before any "success", the source is kept.  The step is
    invoked with a 60-second timeout. -/
theorem C1_archive_delete_safety :
    ∀ polls : List (Option String),
      (archive_step polls = ArchiveAction.deleteSource → (some "success") ∈ polls) ∧
      ((some "success") ∉ polls → archive_step polls = ArchiveAction.keepSource) ∧
      (∀ (i : Nat) (st : Option String),
        polls.get? i = some st →
        (st = some "aborted" ∨ st = some "failed") →
        (∀ j, j < i → polls.get? j ≠ some (some "success")) →
        archive_step polls = ArchiveAction.keepSource) ∧
      archiveCopyTimeoutS = 60 := by
  intro polls
  refine ⟨?_, ?_, ?_, rfl⟩
  · intro h
    apply wait_success_requires_observation
    unfold archive_step at h
    by_cases hw : _wait_for_copy_success polls = true
    · exact hw
    · rw [if_neg hw] at h
      exact absurd h (by decide)
  · intro hmem
    unfold archive_step
    rw [if_neg]
    intro hw
    exact hmem (wait_success_requires_observation polls hw)
  · intro i st hget hterm hbefore
    unfold archive_step
    rw [if_neg]
    rw [wait_terminal_failure polls i st hget hterm hbefore]
    decide

theorem C1_witness :
    ((some "success") ∈ ([some "pending", some "success"] : List (Option String))) ∧
    archive_step [some "pending", none] = ArchiveAction.keepSource ∧
    archive_step [none, some "failed", some "success"] = ArchiveAction.keepSource :=
  ⟨(C1_archive_delete_safety [some "pending", some "success"]).1 (by decide),
   (C1_archive_delete_safety [some "pending", none]).2.1 (by decide),
   (C1_archive_delete_safety [none, some "failed", some "success"]).2.2.1 1 (some "failed")
     (by decide) (Or.inr rfl) (by decide)⟩

/- ---------- src/epl-function/function_app.py : split_excel ---------- -/

/-- Configuration constant ACCEPTED_SHEETS (None = export all sheets). -/
def ACCEPTED_SHEETS : Option (List String) := none

/-- OUT_PREFIX_TEMPLATE instantiated with file type, year, month. -/
def OUT_PREFIX_TEMPLATE (fileType year month : String) : String :=
  fileType ++ "/" ++ year ++ "/" ++ month ++ "/"

/-- ARCHIVE_PREFIX_TEMPLATE instantiated with file type, year, month. -/
def ARCHIVE_PREFIX_TEMPLATE (fileType year month : String) : String :=
  "_archive/" ++ fileType ++ "/" ++ year ++ "/" ++ month ++ "/"

/-- Filename normalization applied by split_excel:
    os.path.basename(full_path).strip().rstrip(apostrophe).rstrip(double-quote). -/
def normalizedFilename (fullPath : String) : String :=
  pyRstrip dquote (pyRstrip squote (pyStrip (lastSlashSegment fullPath)))

/-- Extension / lock-file gate of split_excel: the invocation proceeds
    unless the filename starts with a tilde-dollar lock marker or its
    lowercase form does not end in .xlsx. -/
def splitterAcceptsFilename (filename : String) : Bool :=
  !(pyStartsWith filename "~$") && pyEndsWith (pyLower filename) ".xlsx"

/-- Observable result of one split_excel invocation.  The constructors
    before processed are the early returns, in source order; processed
    carries the classified file type, the partition, the output blob names
    written (one per exported sheet, in order), and the archive
    destination of the original. -/
inductive SplitResult where
  | skippedInternal : SplitResult
  | skippedNonXlsx : SplitResult
  | missingTargetSheet : SplitResult
  | noSheets : SplitResult
  | processed (fileType year month : String)
      (outputs : List String) (archiveDest : String) : SplitResult
deriving DecidableEq

/-- Source: split_excel.  Pure model of one invocation: fullPath is
    inputblob.name, sheetNames is the workbook's sheet list as the Excel
    reader reports it, and now is the current UTC (year, month) used by
    the partition fallback.  Blob writes are recorded as output names;
    the archive copy/poll/delete tail is modelled separately by
    archive_step. -/
def split_excel (now : Nat × Nat) (fullPath : String) (sheetNames : List String) :
    SplitResult :=
  let blobName := dropThroughFirstSlash fullPath
  if pyStartsWith blobName "_archive/" || pyStartsWith blobName "dsp_summary/" then
    SplitResult.skippedInternal
  else
    let filename := normalizedFilename fullPath
    if !(splitterAcceptsFilename filename) then
      SplitResult.skippedNonXlsx
    else
      let stem : String := ⟨filename.toList.take (filename.toList.length - 5)⟩
      let ym := _extract_year_month now stem
      let ft := _determine_file_type filename
      let selected : Option (List String) :=
        match ft.2 with
        | some target => if sheetNames.contains target then some [target] else none
        | none =>
          match ACCEPTED_SHEETS with
          | some acc => some (sheetNames.filter (fun s => acc.contains s))
          | none => some sheetNames
      match selected with
      | none => SplitResult.missingTargetSheet
      | some sel =>
        if sel.isEmpty then SplitResult.noSheets
        else
          SplitResult.processed ft.1 ym.1 ym.2
            (sel.map (fun sheet =>
              OUT_PREFIX_TEMPLATE ft.1 ym.1 ym.2 ++ stem ++ "__" ++ _safe sheet ++ ".csv"))
            (ARCHIVE_PREFIX_TEMPLATE ft.1 ym.1 ym.2 ++ filename)

/- ---------- C7 ---------- -/

/-- C7 as stated is false: driver_routes/ is one of the function's own
    per-category output folders, but a blob under it is not filtered — the
    invocation proceeds all the way to exporting sheets and archiving. -/
theorem C7_counterexample :
    pyStartsWith (dropThroughFirstSlash "ingestion/driver_routes/2025/09/report.xlsx")
      "driver_routes/" = true ∧
    split_excel (2025, 10) "ingestion/driver_routes/2025/09/report.xlsx" ["Sheet1"] =
      SplitResult.processed "dsp_summary" "2025" "10"
        ["dsp_summary/2025/10/report__Sheet1.csv"]
        "_archive/dsp_summary/2025/10/report.xlsx" := by
  refine ⟨rfl, rfl⟩

/-- C7 (amended): the splitter ignores an event exactly when the object
    path inside the container falls under the archive folder or the
    dsp_summary output folder; paths under the driver_routes output folder
    are not filtered. -/
theorem C7_internal_path_filter_amended :
    ∀ (now : Nat × Nat) (fullPath : String) (sheets : List String),
      (pyStartsWith (dropThroughFirstSlash fullPath) "_archive/" = true ∨
       pyStartsWith (dropThroughFirstSlash fullPath) "dsp_summary/" = true) →
      split_excel now fullPath sheets = SplitResult.skippedInternal := by
  intro now fullPath sheets h
  unfold split_excel
  rcases h with h | h <;> simp [h]

theorem C7_witness :
    split_excel (2025, 10) "ingestion/_archive/dsp_summary/2025/02/f.xlsx" ["Solution"] =
      SplitResult.skippedInternal :=
  C7_internal_path_filter_amended (2025, 10)
    "ingestion/_archive/dsp_summary/2025/02/f.xlsx" ["Solution"] (Or.inl (by decide))

/- ---------- C8 ---------- -/

/-- C8: the DayOfOpsPlan end-to-end scenario.  For every current date
    (the fallback is unused because the filename carries a valid date),
    the file classifies as dispatch summary with partition ("2025", "02"),
    exactly the two expected CSV objects are written, and the original is
    archived under the matching archive path. -/
theorem C8_end_to_end_dayofopsplan :
    ∀ now : Nat × Nat,
      split_excel now "ingestion/2025-02-10-DSK4-CYCLE_1-DSP-DayOfOpsPlan.xlsx"
          ["Solution", "Notes"] =
        SplitResult.processed "dsp_summary" "2025" "02"
          ["dsp_summary/2025/02/2025-02-10-DSK4-CYCLE_1-DSP-DayOfOpsPlan__Solution.csv",
           "dsp_summary/2025/02/2025-02-10-DSK4-CYCLE_1-DSP-DayOfOpsPlan__Notes.csv"]
          "_archive/dsp_summary/2025/02/2025-02-10-DSK4-CYCLE_1-DSP-DayOfOpsPlan.xlsx" :=
  fun _ => rfl

/- ---------- C9 ---------- -/

/-- A list is a Boolean prefix of itself extended on the right. -/
theorem isPrefixOf_append_self (l r : List Char) : l.isPrefixOf (l ++ r) = true := by
  induction l with
  | nil => simp [List.isPrefixOf]
  | cons a t ih => simp [List.isPrefixOf, ih]

/-- The lowercased form of any name extended with .xlsx ends in .xlsx. -/
theorem lower_endsWith_xlsx (stem : String) :
    pyEndsWith (pyLower (stem ++ ".xlsx")) ".xlsx" = true := by
  show (".xlsx".toList.reverse.isPrefixOf ((pyLower (stem ++ ".xlsx")).toList.reverse)) = true
  have h : (pyLower (stem ++ ".xlsx")).toList.reverse =
      ".xlsx".toList.reverse ++ (stem.toList.map Char.toLower).reverse := by
    show ((stem.toList ++ ".xlsx".toList).map Char.toLower).reverse = _
    rw [List.map_append, List.reverse_append]
    rfl
  rw [h]
  exact isPrefixOf_append_self _ _

/-- Reversal of a name extended with .xlsx, spelled out. -/
theorem reverse_xlsx (stem : String) :
    ((stem ++ ".xlsx").toList).reverse = 'x' :: 's' :: 'l' :: 'x' :: '.' :: stem.toList.reverse := by
  rw [toList_append, List.reverse_append]
  rfl

/-- Stripping trailing apostrophes removes exactly the quote that follows
    the .xlsx extension. -/
theorem rstrip_squote_xlsx (stem : String) :
    pyRstrip squote (stem ++ ".xlsx" ++ String.singleton squote) = stem ++ ".xlsx" := by
  apply String.ext
  show ((stem ++ ".xlsx" ++ String.singleton squote).toList.reverse.dropWhile
      (fun d => d == squote)).reverse = (stem ++ ".xlsx").toList
  rw [toList_append, List.reverse_append,
    show (String.singleton squote).toList.reverse = [squote] from rfl, reverse_xlsx]
  rw [show ([squote] ++ 'x' :: 's' :: 'l' :: 'x' :: '.' :: stem.toList.reverse) =
    squote :: 'x' :: 's' :: 'l' :: 'x' :: '.' :: stem.toList.reverse from rfl]
  rw [List.dropWhile_cons, if_pos (by decide), List.dropWhile_cons, if_neg (by decide)]
  rw [← reverse_xlsx, List.reverse_reverse]

/-- Stripping trailing double-quotes leaves a name ending in .xlsx alone. -/
theorem rstrip_dquote_xlsx (stem : String) :
    pyRstrip dquote (stem ++ ".xlsx") = stem ++ ".xlsx" := by
  apply String.ext
  show (((stem ++ ".xlsx").toList.reverse.dropWhile (fun d => d == dquote)).reverse) =
    (stem ++ ".xlsx").toList
  rw [reverse_xlsx, List.dropWhile_cons, if_neg (by decide), ← reverse_xlsx,
    List.reverse_reverse]

/-- C9: before the extension check, split_excel normalizes the basename by
    stripping whitespace, then trailing apostrophes, then trailing
    double-quotes; so a blob whose basename is a name ending in .xlsx
    followed by a trailing apostrophe is processed under the trimmed
    filename and passes the extension gate. -/
theorem C9_trailing_quote_normalization :
    ∀ (fullPath stem : String),
      lastSlashSegment fullPath = stem ++ ".xlsx" ++ String.singleton squote →
      pyStrip (stem ++ ".xlsx" ++ String.singleton squote) =
        stem ++ ".xlsx" ++ String.singleton squote →
      pyStartsWith (stem ++ ".xlsx") "~$" = false →
      normalizedFilename fullPath = stem ++ ".xlsx" ∧
      splitterAcceptsFilename (normalizedFilename fullPath) = true := by
  intro fullPath stem h1 h2 h3
  have hn : normalizedFilename fullPath = stem ++ ".xlsx" := by
    unfold normalizedFilename
    rw [h1, h2, rstrip_squote_xlsx, rstrip_dquote_xlsx]
  refine ⟨hn, ?_⟩
  rw [hn]
  unfold splitterAcceptsFilename
  rw [h3, lower_endsWith_xlsx]
  rfl

theorem C9_witness :
    normalizedFilename ("ingestion/data.xlsx" ++ String.singleton squote) = "data" ++ ".xlsx" ∧
    splitterAcceptsFilename
      (normalizedFilename ("ingestion/data.xlsx" ++ String.singleton squote)) = true :=
  C9_trailing_quote_normalization ("ingestion/data.xlsx" ++ String.singleton squote) "data"
    (by decide) (by decide) (by decide)

/- ---------- src/.github/scripts/gate_until_loaded.py ---------- -/

/-- One row of the warehouse COPY_HISTORY result; only the status column
    (row index 1, nullable) drives the gate's control flow. -/
structure CopyHistoryRow where
  status : Option String
deriving DecidableEq

/-- Fixed delay between gate polls: time.sleep(10). -/
def gatePollDelaySeconds : Nat := 10

/-- Classification of a single poll inside the gate loop: the query
    returns at most one row (the most recent match).  Returns the exit
    code for a terminal status, or none to keep polling.  Models
    status = (row[1] or "").upper() followed by the two comparisons. -/
def gateStep (row : Option CopyHistoryRow) : Option Nat :=
  match row with
  | none => none
  | some r =>
    let status := pyUpper (r.status.getD "")
    if status == "LOADED" then some 0
    else if status == "LOAD_FAILED" || status == "PARTIALLY_LOADED" then some 2
    else none

/-- Source: main of gate_until_loaded.py.  The input list is the sequence
    of query results the loop would see at successive polls, its length
    the number of polls that start before the timeout; an exhausted list
    means the wall clock passed the timeout, where the script prints the
    timeout message and returns 3. -/
def gateMain : List (Option CopyHistoryRow) → Nat
  | [] => 3
  | r :: rest =>
    match gateStep r with
    | some code => code
    | none => gateMain rest

/- ---------- C5 ---------- -/

/-- C5: the gate's result mapping.  A most-recent row with status LOADED
    exits 0; LOAD_FAILED or PARTIALLY_LOADED exits 2 with no further
    polling (the remaining polls are irrelevant); any other status, or no
    row at all, leads to the next poll after the fixed 10-second delay;
    an exhausted poll budget (timeout) exits 3. -/
theorem C5_gate_exit_codes :
    (∀ rest : List (Option CopyHistoryRow),
      gateMain (some ⟨some "LOADED"⟩ :: rest) = 0) ∧
    (∀ (rest : List (Option CopyHistoryRow)) (s : String),
      s = "LOAD_FAILED" ∨ s = "PARTIALLY_LOADED" →
      gateMain (some ⟨some s⟩ :: rest) = 2) ∧
    (∀ (rest : List (Option CopyHistoryRow)) (st : Option String),
      pyUpper (st.getD "") ≠ "LOADED" →
      pyUpper (st.getD "") ≠ "LOAD_FAILED" →
      pyUpper (st.getD "") ≠ "PARTIALLY_LOADED" →
      gateMain (some ⟨st⟩ :: rest) = gateMain rest) ∧
    (∀ rest : List (Option CopyHistoryRow),
      gateMain ((none : Option CopyHistoryRow) :: rest) = gateMain rest) ∧
    gateMain [] = 3 ∧ gatePollDelaySeconds = 10 := by
  refine ⟨?_, ?_, ?_, ?_, rfl, rfl⟩
  · intro rest
    rfl
  · intro rest s h
    rcases h with h | h <;> subst h <;> rfl
  · intro rest st h0 h2a h2b
    have hstep : gateStep (some ⟨st⟩) = none := by
      show (if (pyUpper (st.getD "") == "LOADED") = true then some (0 : Nat)
        else if (pyUpper (st.getD "") == "LOAD_FAILED" ||
            pyUpper (st.getD "") == "PARTIALLY_LOADED") = true then some 2
        else none) = none
      rw [if_neg (by simpa using h0), if_neg (by simp [h2a, h2b])]
    show (match gateStep (some ⟨st⟩) with
      | some code => code
      | none => gateMain rest) = gateMain rest
    rw [hstep]
  · intro rest
    rfl

theorem C5_witness :
    gateMain [some ⟨some "LOAD_FAILED"⟩, some ⟨some "LOADED"⟩] = 2 ∧
    gateMain [some ⟨some "LOADING"⟩] = gateMain [] :=
  ⟨C5_gate_exit_codes.2.1 [some ⟨some "LOADED"⟩] "LOAD_FAILED" (Or.inl rfl),
   C5_gate_exit_codes.2.2.1 [] (some "LOADING") (by decide) (by decide) (by decide)⟩

/- ---------- C10 ---------- -/

/-- C10: the gate's status classification is case-insensitive and
    null-tolerant: the status column is uppercased before comparison, so
    any letter case of loaded exits 0 and any letter case of load_failed
    or partially_loaded exits 2; a null status is treated exactly like the
    empty string (the loop keeps polling). -/
theorem C10_gate_case_insensitive_null_tolerant :
    (∀ (rest : List (Option CopyHistoryRow)) (s : String),
      pyUpper s = "LOADED" → gateMain (some ⟨some s⟩ :: rest) = 0) ∧
    (∀ (rest : List (Option CopyHistoryRow)) (s : String),
      pyUpper s = "LOAD_FAILED" ∨ pyUpper s = "PARTIALLY_LOADED" →
      gateMain (some ⟨some s⟩ :: rest) = 2) ∧
    (∀ rest : List (Option CopyHistoryRow),
      gateMain (some ⟨none⟩ :: rest) = gateMain (some ⟨some ""⟩ :: rest)) := by
  refine ⟨?_, ?_, ?_⟩
  · intro rest s h
    have hstep : gateStep (some ⟨some s⟩) = some 0 := by
      show (if (pyUpper s == "LOADED") = true then some (0 : Nat)
        else if (pyUpper s == "LOAD_FAILED" ||
            pyUpper s == "PARTIALLY_LOADED") = true then some 2
        else none) = some 0
      rw [if_pos (by simpa using h)]
    show (match gateStep (some ⟨some s⟩) with
      | some code => code
      | none => gateMain rest) = 0
    rw [hstep]
  · intro rest s h
    have hne : pyUpper s ≠ "LOADED" := by
      rcases h with h | h <;> rw [h] <;> decide
    have hstep : gateStep (some ⟨some s⟩) = some 2 := by
      show (if (pyUpper s == "LOADED") = true then some (0 : Nat)
        else if (pyUpper s == "LOAD_FAILED" ||
            pyUpper s == "PARTIALLY_LOADED") = true then some 2
        else none) = some 2
      rw [if_neg (by simpa using hne), if_pos (by rcases h with h | h <;> simp [h])]
    show (match gateStep (some ⟨some s⟩) with
      | some code => code
      | none => gateMain rest) = 2
    rw [hstep]
  · intro rest
    rfl

theorem C10_witness :
    gateMain [some ⟨some "loaded"⟩] = 0 ∧
    gateMain [some ⟨some "Partially_Loaded"⟩] = 2 :=
  ⟨(C10_gate_case_insensitive_null_tolerant.1 [] "loaded" (by decide)),
   (C10_gate_case_insensitive_null_tolerant.2.1 [] "Partially_Loaded" (Or.inr (by decide)))⟩

/- ---------- src/epl-dbt-dispatcher/function_app.py ---------- -/

/-- Environment-derived configuration returned by get_config; every field
    defaults to the empty string when the variable is unset. -/
structure DispatcherConfig where
  GITHUB_OWNER : String
  GITHUB_REPO : String
  GITHUB_PAT : String
  PATH_BEGINS : String
  PATH_ENDS : String
deriving DecidableEq

/-- Observable outcome of one dispatcher invocation: a raised
    configuration error (ValueError), a silent early return on a filter
    mismatch (no HTTP call), or an HTTP dispatch carrying the derived
    file name. -/
inductive DispatchOutcome where
  | configError (msg : String) : DispatchOutcome
  | skippedByFilter : DispatchOutcome
  | dispatched (fileName : String) : DispatchOutcome
deriving DecidableEq

/-- Source: OnBlobCreatedDispatchToGitHub.  Pure model of one invocation
    up to the single outbound HTTP POST: the event is assumed parseable
    (subject and blob URL are its inputs); Python truthiness on the
    configuration strings is emptiness. -/
def OnBlobCreatedDispatchToGitHub (cfg : DispatcherConfig) (subject blobUrl : String) :
    DispatchOutcome :=
  if cfg.GITHUB_OWNER == "" || cfg.GITHUB_REPO == "" then
    DispatchOutcome.configError "GitHub configuration incomplete"
  else if cfg.GITHUB_PAT == "" then
    DispatchOutcome.configError "GitHub PAT not configured"
  else if cfg.PATH_BEGINS != "" && !(pyStartsWith subject cfg.PATH_BEGINS) then
    DispatchOutcome.skippedByFilter
  else if cfg.PATH_ENDS != "" && !(pyEndsWith subject cfg.PATH_ENDS) then
    DispatchOutcome.skippedByFilter
  else
    DispatchOutcome.dispatched
      (if blobUrl != "" then lastSlashSegment blobUrl else lastSlashSegment subject)

/- ---------- C6 ---------- -/

/-- C6 as stated is false: configuration validation runs before the path
    filters, so an invocation with a configured suffix filter and a
    non-matching subject still raises when the GitHub PAT is missing,
    instead of returning normally. -/
theorem C6_counterexample :
    OnBlobCreatedDispatchToGitHub ⟨"eagle-peak", "epl-dbt", "", "", "__Solution.csv"⟩
        "/blobServices/default/containers/ingestion/blobs/x.xlsx" "" =
      DispatchOutcome.configError "GitHub PAT not configured" ∧
    pyEndsWith "/blobServices/default/containers/ingestion/blobs/x.xlsx"
      "__Solution.csv" = false ∧
    DispatchOutcome.configError "GitHub PAT not configured" ≠
      DispatchOutcome.skippedByFilter := by
  refine ⟨rfl, rfl, by decide⟩

/-- C6 (amended): when the GitHub owner, repo and token are all present,
    an invocation whose subject fails a configured path-prefix or
    path-suffix filter returns normally without any HTTP call. -/
theorem C6_filter_mismatch_is_noop_amended :
    ∀ (cfg : DispatcherConfig) (subject blobUrl : String),
      cfg.GITHUB_OWNER ≠ "" → cfg.GITHUB_REPO ≠ "" → cfg.GITHUB_PAT ≠ "" →
      ((cfg.PATH_BEGINS ≠ "" ∧ pyStartsWith subject cfg.PATH_BEGINS = false) ∨
       (cfg.PATH_ENDS ≠ "" ∧ pyEndsWith subject cfg.PATH_ENDS = false)) →
      OnBlobCreatedDispatchToGitHub cfg subject blobUrl = DispatchOutcome.skippedByFilter := by
  intro cfg subject blobUrl h1 h2 h3 h4
  unfold OnBlobCreatedDispatchToGitHub
  rw [if_neg (by simp [h1, h2]), if_neg (by simpa using h3)]
  rcases h4 with ⟨hb, hs⟩ | ⟨he, hs⟩
  · rw [if_pos (by simp [hb, hs])]
  · by_cases hfirst : (cfg.PATH_BEGINS != "" && !(pyStartsWith subject cfg.PATH_BEGINS)) = true
    · rw [if_pos hfirst]
    · rw [if_neg hfirst, if_pos (by simp [he, hs])]

theorem C6_witness :
    OnBlobCreatedDispatchToGitHub ⟨"eagle-peak", "epl-dbt", "token123", "", "__Solution.csv"⟩
        "/blobServices/default/containers/ingestion/blobs/x.xlsx" "" =
      DispatchOutcome.skippedByFilter :=
  C6_filter_mismatch_is_noop_amended
    ⟨"eagle-peak", "epl-dbt", "token123", "", "__Solution.csv"⟩
    "/blobServices/default/containers/ingestion/blobs/x.xlsx" ""
    (by decide) (by decide) (by decide) (Or.inr ⟨by decide, by decide⟩)
